import Mathlib

/-!
Shallow embedding of the deposit-session client logic of the repository:
the hook `useDepositSession` (src/src/hooks/deposit/useDepositSession.ts),
together with the display helpers `formatTime` (DepositTimer.tsx) and
`getStatusMessage` (DepositProgressBar.tsx).

React `useState` cells become fields of an explicit `HookState` record;
each `useEffect` body, interval callback and exported callback becomes a
pure function on `HookState`; network I/O (axios) is made explicit by
passing the server's response as an argument and returning the issued
request alongside the new state.
-/

namespace UI

/-- Modelled from the spec: the `TransactionStatus` type is imported from
`src/types`, which is not among the sources.  The spec describes
deposit-session status tracking as "five enum values"
(DETECTED, PROCESSING, CONFIRMING, CONFIRMED, COMPLETED); the TypeScript
value also admits `null`, rendered here as `Option TxStatus`. -/
inductive TxStatus where
  | DETECTED
  | PROCESSING
  | CONFIRMING
  | CONFIRMED
  | COMPLETED
deriving DecidableEq, Repr

/-- Modelled from the spec: the `DepositSession` DTO type is imported from
`src/types`, which is not among the sources.  The spec calls it "a
server-tracked record correlating a user address with an expected incoming
payment"; the fields are the ones the client code reads (`_id`, `status`,
`txStatus`) plus the correlated `userAddress`. -/
structure DepositSession where
  _id : String
  userAddress : String
  status : String
  txStatus : Option TxStatus
deriving DecidableEq, Repr

/-- Modelled from the spec: `src/config/constants` is not among the
sources; the deposit target address is an opaque configured string. -/
def DEPOSIT_ADDRESS : String := "configured-deposit-address"

/-- Modelled from the spec: `src/config/constants` is not among the
sources; the backend proxy base URL is an opaque configured string. -/
def PROXY_URL : String := "configured-proxy-url"

/-- The nine `useState` cells of `useDepositSession`
(useDepositSession.ts lines 23-31). -/
structure HookState where
  sessionId : Option String
  currentSession : Option DepositSession
  showQR : Bool
  timeLeft : Int
  transactionStatus : Option TxStatus
  progressPercentage : ℚ
  completionCountdown : Int
  isDepositCompleted : Bool
  error : Option String
deriving DecidableEq, Repr

/-- The initial values of the nine `useState` cells
(useDepositSession.ts lines 23-31). -/
def initialState : HookState :=
  { sessionId := none
    currentSession := none
    showQR := false
    timeLeft := 300
    transactionStatus := none
    progressPercentage := 0
    completionCountdown := 0
    isDepositCompleted := false
    error := none }

/-- Progress mapping `getProgressFromStatus` (useDepositSession.ts lines
34-49): the `default` arm of the switch catches the `null` status. -/
def getProgressFromStatus (status : Option TxStatus) : ℚ :=
  match status with
  | some TxStatus.DETECTED => 20
  | some TxStatus.PROCESSING => 40
  | some TxStatus.CONFIRMING => 60
  | some TxStatus.CONFIRMED => 80
  | some TxStatus.COMPLETED => 100
  | none => 0

/-- The effect on `transactionStatus` (useDepositSession.ts lines 52-59):
when the status is non-null, set the progress bar from it, and on
CONFIRMED arm the 20-second completion countdown. -/
def statusEffect (s : HookState) : HookState :=
  match s.transactionStatus with
  | none => s
  | some st =>
      if st = TxStatus.CONFIRMED then
        { s with
            progressPercentage := getProgressFromStatus (some st)
            completionCountdown := 20 }
      else { s with progressPercentage := getProgressFromStatus (some st) }

/-- What an interval callback of the hook does, identifying each of the
three `setInterval` call sites. -/
inductive IntervalAction where
  | pollSession (userAddress : String)
  | expiryCountdown
  | completionCountdown
deriving DecidableEq, Repr

/-- An interval timer as the hook creates it: its period in milliseconds
and its callback. -/
structure IntervalDesc where
  periodMs : Nat
  action : IntervalAction
deriving DecidableEq, Repr

/-- Setup of the completion-countdown effect (useDepositSession.ts lines
62-77): with the countdown at zero it promotes a CONFIRMED status to
COMPLETED and starts no timer; otherwise it starts a 1000 ms interval and
returns a cleanup clearing exactly that interval.  The result is the state
after the body runs, the intervals started, and the intervals cleared by
the returned cleanup. -/
def completionEffect (s : HookState) :
    HookState × List IntervalDesc × List IntervalDesc :=
  if s.completionCountdown ≤ 0 then
    if s.transactionStatus = some TxStatus.CONFIRMED then
      ({ s with transactionStatus := some TxStatus.COMPLETED }, [], [])
    else (s, [], [])
  else
    (s, [⟨1000, IntervalAction.completionCountdown⟩],
      [⟨1000, IntervalAction.completionCountdown⟩])

/-- One tick of the completion-countdown interval (useDepositSession.ts
lines 70-74).  The interval exists only when the effect ran with a
positive countdown (line 63), so the tick is guarded by that condition;
the closure reads the render's `completionCountdown`, the value before
the decrement. -/
def completionTick (s : HookState) : HookState :=
  if 0 < s.completionCountdown then
    { s with
      completionCountdown := s.completionCountdown - 1
      progressPercentage :=
        min (80 + ((30 - (s.completionCountdown : ℚ)) / 30) * 20) 100 }
  else s

/-- The early-return guard of the expiry-countdown effect
(useDepositSession.ts line 81), negated: the countdown runs only when the
QR is shown, a session exists, its status is PENDING and time remains. -/
def expiryGuard (s : HookState) : Bool :=
  s.showQR &&
    (match s.currentSession with
     | some cs => cs.status == "PENDING"
     | none => false) &&
    decide (0 < s.timeLeft)

/-- The `setCurrentSession` updater run at expiry (useDepositSession.ts
line 90): a present session gets status EXPIRED, a null session stays
null. -/
def expireSessionUpdate (prev : Option DepositSession) : Option DepositSession :=
  prev.map (fun cs => { cs with status := "EXPIRED" })

/-- One tick of the session-expiry interval (useDepositSession.ts lines
85-95).  The interval exists only in states passing the guard of line 81,
so the tick is guarded by `expiryGuard`; reaching zero hides the QR,
expires the session and clamps `timeLeft` at 0. -/
def expiryTick (s : HookState) : HookState :=
  if expiryGuard s then
    let newTime := s.timeLeft - 1
    if newTime ≤ 0 then
      { s with
        timeLeft := 0
        showQR := false
        currentSession := expireSessionUpdate s.currentSession }
    else { s with timeLeft := newTime }
  else s

/-- Setup of the expiry-countdown effect (useDepositSession.ts lines
80-98): past the guard it starts a 1000 ms interval and returns a cleanup
clearing exactly that interval; otherwise it returns early.  The result is
the intervals started and the intervals cleared by the returned
cleanup. -/
def expiryEffect (s : HookState) : List IntervalDesc × List IntervalDesc :=
  if expiryGuard s then
    ([⟨1000, IntervalAction.expiryCountdown⟩],
      [⟨1000, IntervalAction.expiryCountdown⟩])
  else ([], [])

/-- The URL `checkSessionStatus` polls (useDepositSession.ts line 105). -/
def checkSessionRequestUrl (userAddress : String) : String :=
  PROXY_URL ++ "/deposit-sessions/user/" ++ userAddress

/-- The body `checkSessionStatus` runs on a response carrying a session
(useDepositSession.ts lines 108-116): adopt the session, and when its
`txStatus` is truthy and differs from the current status adopt it too,
marking the deposit completed when it is COMPLETED. -/
def applyPolledSession (s : HookState) (session : DepositSession) : HookState :=
  match session.txStatus with
  | none => { s with currentSession := some session }
  | some t =>
      if some t ≠ s.transactionStatus then
        if t = TxStatus.COMPLETED then
          { s with
              currentSession := some session
              transactionStatus := some t
              isDepositCompleted := true }
        else
          { s with
              currentSession := some session
              transactionStatus := some t }
      else { s with currentSession := some session }

/-- Polling callback `checkSessionStatus` (useDepositSession.ts lines
101-120).  The server
interaction is explicit: `resp = none` is a failed request (the catch
leaves the state unchanged), `resp = some none` a response whose `data` is
falsy, `resp = some (some sess)` a response carrying a session, handled by
`applyPolledSession`.  Returns the new state and the URL of the GET
request issued, `none` when the guard of line 102 returned before any
request. -/
def checkSessionStatus (s : HookState) (userAddress : String)
    (resp : Option (Option DepositSession)) : HookState × Option String :=
  if s.sessionId.isNone || s.currentSession.isNone || s.isDepositCompleted then
    (s, none)
  else
    match resp with
    | none => (s, some (checkSessionRequestUrl userAddress))
    | some none => (s, some (checkSessionRequestUrl userAddress))
    | some (some session) =>
        (applyPolledSession s session, some (checkSessionRequestUrl userAddress))

/-- The POST body built by `createSession`
(useDepositSession.ts lines 125-128). -/
structure DepositPayload where
  userAddress : String
  depositAddress : String
deriving DecidableEq, Repr

/-- The payload of the session-creating POST (useDepositSession.ts lines
125-128): the caller's address and the configured deposit address. -/
def createSessionPayload (userAddress : String) : DepositPayload :=
  { userAddress := userAddress, depositAddress := DEPOSIT_ADDRESS }

/-- The URL of the session-creating POST (useDepositSession.ts line 130). -/
def createSessionRequestUrl : String :=
  PROXY_URL ++ "/deposit-sessions"

/-- A failed axios POST as the catch of `createSession` inspects it
(useDepositSession.ts lines 148-155): `responseError` is
`err.response?.data?.error` when that chain is present. -/
structure AxiosFailure where
  responseError : Option String
deriving DecidableEq, Repr

/-- The error message `createSession` stores on failure
(useDepositSession.ts lines 150-155): the server-supplied message when
present and truthy (JS `||` rejects the empty string), the fixed fallback
otherwise. -/
def axiosErrorMessage (f : AxiosFailure) : String :=
  match f.responseError with
  | some m => if m = "" then "Failed to create deposit session" else m
  | none => "Failed to create deposit session"

/-- Session creation `createSession` (useDepositSession.ts lines
123-157).  The response to
the POST is explicit: on success the eight `set` calls of lines 132-139
run, a 5000 ms polling interval calling `checkSessionStatus` with the same
`userAddress` is started, and the returned cleanup clears exactly that
interval; on failure only `error` is set and `undefined` is returned.  The
result is the new state, the intervals started, and `some` list of
intervals cleared by the returned cleanup (`none` = returned
`undefined`). -/
def createSession (s : HookState) (userAddress : String)
    (resp : Except AxiosFailure DepositSession) :
    HookState × List IntervalDesc × Option (List IntervalDesc) :=
  match resp with
  | Except.ok data =>
      ({ s with
          currentSession := some data
          sessionId := some data._id
          showQR := true
          timeLeft := 300
          error := none
          transactionStatus := none
          progressPercentage := 0
          isDepositCompleted := false },
        [⟨5000, IntervalAction.pollSession userAddress⟩],
        some [⟨5000, IntervalAction.pollSession userAddress⟩])
  | Except.error f =>
      ({ s with error := some (axiosErrorMessage f) }, [], none)

/-- Reset callback `resetSession` (useDepositSession.ts lines 160-169):
the eight `set` calls.  `completionCountdown` is not among them. -/
def resetSession (s : HookState) : HookState :=
  { s with
      sessionId := none
      currentSession := none
      showQR := false
      timeLeft := 300
      transactionStatus := none
      progressPercentage := 0
      isDepositCompleted := false
      error := none }

/-- The events that mutate the hook's state: the two effect bodies, the
two interval ticks, a poll with its response, a session creation with its
response, and a reset.  Responses carry arbitrary data, so a run of this
system covers every behaviour of the server. -/
inductive HookEvent where
  | statusE
  | completionE
  | completionT
  | expiryT
  | poll (userAddress : String) (resp : Option (Option DepositSession))
  | createOk (userAddress : String) (data : DepositSession)
  | createErr (userAddress : String) (f : AxiosFailure)
  | reset

/-- One step of the deposit-session state machine: dispatch of an event to
the function embedding it. -/
def step (s : HookState) (e : HookEvent) : HookState :=
  match e with
  | HookEvent.statusE => statusEffect s
  | HookEvent.completionE => (completionEffect s).1
  | HookEvent.completionT => completionTick s
  | HookEvent.expiryT => expiryTick s
  | HookEvent.poll ua resp => (checkSessionStatus s ua resp).1
  | HookEvent.createOk ua data => (createSession s ua (Except.ok data)).1
  | HookEvent.createErr ua f => (createSession s ua (Except.error f)).1
  | HookEvent.reset => resetSession s

/-- The states the hook can reach from its initial state under any
interleaving of effects, ticks, polls, creations and resets. -/
inductive Reachable : HookState → Prop
  | init : Reachable initialState
  | next (s : HookState) (e : HookEvent) : Reachable s → Reachable (step s e)

/-- Position of a status along the documented chain
DETECTED → PROCESSING → CONFIRMING → CONFIRMED → COMPLETED. -/
def statusRank (t : TxStatus) : Nat :=
  match t with
  | TxStatus.DETECTED => 0
  | TxStatus.PROCESSING => 1
  | TxStatus.CONFIRMING => 2
  | TxStatus.CONFIRMED => 3
  | TxStatus.COMPLETED => 4

/-- Left zero-padding of a string to two characters, as the JS
`padStart(2, "0")` of DepositTimer.tsx line 14. -/
def padStart2 (str : String) : String :=
  String.mk (List.replicate (2 - str.length) '0') ++ str

/-- Time formatting `formatTime` (DepositTimer.tsx lines 11-15,
identically QRDeposit in part_003): `Math.floor` division is `Int.fdiv`
and the JS `%` on numbers is truncated remainder `Int.tmod`. -/
def formatTime (seconds : Int) : String :=
  let mins := Int.fdiv seconds 60
  let secs := Int.tmod seconds 60
  padStart2 (toString mins) ++ ":" ++ padStart2 (toString secs)

/-- The minutes figure of the "Session will expire in M minutes and S
seconds" line (DepositTimer.tsx line 27). -/
def expireLineMinutes (timeLeft : Int) : Int :=
  Int.fdiv timeLeft 60

/-- The seconds figure of the "Session will expire in M minutes and S
seconds" line (DepositTimer.tsx line 27). -/
def expireLineSeconds (timeLeft : Int) : Int :=
  Int.tmod timeLeft 60

/-- Joint inductive invariant of the hook's reachable states. -/
def Inv (s : HookState) : Prop :=
  0 ≤ s.progressPercentage ∧ s.progressPercentage ≤ 100 ∧
    0 ≤ s.completionCountdown ∧ s.completionCountdown ≤ 20 ∧ 0 ≤ s.timeLeft

/-- A state in which the expiry countdown is running: QR shown, PENDING
session present, five seconds left. -/
def runningState : HookState :=
  { initialState with
      showQR := true
      currentSession := some
        { _id := "id1", userAddress := "0xUser", status := "PENDING", txStatus := none }
      timeLeft := 5 }

/-- State `runningState` on its last second. -/
def lastSecondState : HookState :=
  { runningState with timeLeft := 1 }

/-- A state mid-session with a completed deposit: the poll guard
short-circuits on isDepositCompleted alone. -/
def completedState : HookState :=
  { initialState with
      sessionId := some "id1"
      currentSession := some
        { _id := "id1", userAddress := "0xUser", status := "PENDING",
          txStatus := some TxStatus.COMPLETED }
      isDepositCompleted := true }

/-- The MM:SS rendering the claim describes, written from its words:
minutes = floor(seconds / 60) and seconds part = seconds mod 60, each
zero-padded to two digits. -/
def formatTimeSpec (seconds : Nat) : String :=
  padStart2 (toString (seconds / 60)) ++ ":" ++ padStart2 (toString (seconds % 60))

theorem inv_initial : Inv initialState := by
  refine ⟨?_, ?_, ?_, ?_, ?_⟩ <;> norm_num [initialState]

theorem applyPolledSession_frame (s : HookState) (sess : DepositSession) :
    (applyPolledSession s sess).progressPercentage = s.progressPercentage ∧
      (applyPolledSession s sess).completionCountdown = s.completionCountdown ∧
      (applyPolledSession s sess).timeLeft = s.timeLeft ∧
      (applyPolledSession s sess).showQR = s.showQR ∧
      (applyPolledSession s sess).sessionId = s.sessionId ∧
      (applyPolledSession s sess).error = s.error := by
  unfold applyPolledSession
  rcases sess.txStatus with _ | t
  · exact ⟨rfl, rfl, rfl, rfl, rfl, rfl⟩
  · dsimp only
    split
    · split
      · exact ⟨rfl, rfl, rfl, rfl, rfl, rfl⟩
      · exact ⟨rfl, rfl, rfl, rfl, rfl, rfl⟩
    · exact ⟨rfl, rfl, rfl, rfl, rfl, rfl⟩

theorem checkSessionStatus_frame (s : HookState) (ua : String)
    (r : Option (Option DepositSession)) :
    (checkSessionStatus s ua r).1.progressPercentage = s.progressPercentage ∧
      (checkSessionStatus s ua r).1.completionCountdown = s.completionCountdown ∧
      (checkSessionStatus s ua r).1.timeLeft = s.timeLeft ∧
      (checkSessionStatus s ua r).1.showQR = s.showQR ∧
      (checkSessionStatus s ua r).1.sessionId = s.sessionId ∧
      (checkSessionStatus s ua r).1.error = s.error := by
  unfold checkSessionStatus
  split
  · exact ⟨rfl, rfl, rfl, rfl, rfl, rfl⟩
  · rcases r with _ | _ | sess
    · exact ⟨rfl, rfl, rfl, rfl, rfl, rfl⟩
    · exact ⟨rfl, rfl, rfl, rfl, rfl, rfl⟩
    · exact applyPolledSession_frame s sess

theorem inv_step (s : HookState) (e : HookEvent) (h : Inv s) : Inv (step s e) := by
  obtain ⟨h1, h2, h3, h4, h5⟩ := h
  cases e with
  | statusE =>
      show Inv (statusEffect s)
      unfold statusEffect
      rcases s.transactionStatus with _ | t
      · exact ⟨h1, h2, h3, h4, h5⟩
      · dsimp only
        split <;> rcases t <;>
          refine ⟨?_, ?_, ?_, ?_, ?_⟩ <;> (try dsimp only) <;>
          first
          | omega
          | norm_num [getProgressFromStatus]
  | completionE =>
      show Inv (completionEffect s).1
      unfold completionEffect
      split
      · split
        · exact ⟨h1, h2, h3, h4, h5⟩
        · exact ⟨h1, h2, h3, h4, h5⟩
      · exact ⟨h1, h2, h3, h4, h5⟩
  | completionT =>
      show Inv (completionTick s)
      unfold completionTick
      split
      · rename_i hpos
        have hc : (s.completionCountdown : ℚ) ≤ 20 := by exact_mod_cast h4
        refine ⟨?_, ?_, ?_, ?_, ?_⟩ <;> dsimp only
        · exact le_min (by nlinarith) (by norm_num)
        · exact min_le_right _ _
        · omega
        · omega
        · exact h5
      · exact ⟨h1, h2, h3, h4, h5⟩
  | expiryT =>
      show Inv (expiryTick s)
      unfold expiryTick
      dsimp only
      split
      · split <;> refine ⟨h1, h2, h3, h4, ?_⟩ <;> dsimp only <;> omega
      · exact ⟨h1, h2, h3, h4, h5⟩
  | poll ua r =>
      obtain ⟨f1, f2, f3, _, _, _⟩ := checkSessionStatus_frame s ua r
      show Inv (checkSessionStatus s ua r).1
      rw [Inv, f1, f2, f3]
      exact ⟨h1, h2, h3, h4, h5⟩
  | createOk ua d =>
      show Inv (createSession s ua (Except.ok d)).1
      unfold createSession
      refine ⟨?_, ?_, ?_, ?_, ?_⟩ <;> (try dsimp only) <;>
        first
        | omega
        | norm_num
  | createErr ua f =>
      show Inv (createSession s ua (Except.error f)).1
      unfold createSession
      exact ⟨h1, h2, h3, h4, h5⟩
  | reset =>
      show Inv (resetSession s)
      unfold resetSession
      refine ⟨?_, ?_, ?_, ?_, ?_⟩ <;> (try dsimp only) <;>
        first
        | omega
        | norm_num

theorem reachable_inv (s : HookState) (h : Reachable s) : Inv s := by
  induction h with
  | init => exact inv_initial
  | next s e _ ih => exact inv_step s e ih

/-- Exhaustive description of how a single event changes
`transactionStatus`: it is preserved, adopted verbatim from a polled
session's `txStatus`, promoted CONFIRMED→COMPLETED by the completion
countdown, or cleared to null by `createSession`/`resetSession`. -/
theorem statusUpdate_cases (s : HookState) (e : HookEvent) :
    (step s e).transactionStatus = s.transactionStatus ∨
      (∃ ua sess, e = HookEvent.poll ua (some (some sess)) ∧
        (step s e).transactionStatus = sess.txStatus) ∨
      (e = HookEvent.completionE ∧ s.transactionStatus = some TxStatus.CONFIRMED ∧
        (step s e).transactionStatus = some TxStatus.COMPLETED) ∨
      ((∃ ua d, e = HookEvent.createOk ua d) ∧ (step s e).transactionStatus = none) ∨
      (e = HookEvent.reset ∧ (step s e).transactionStatus = none) := by
  cases e with
  | statusE =>
      left
      simp only [step]
      unfold statusEffect
      split
      · rfl
      · split <;> rfl
  | completionE =>
      simp only [step]
      unfold completionEffect
      split
      · split
        · rename_i hconf
          right; right; left
          exact ⟨trivial, hconf, rfl⟩
        · left; rfl
      · left; rfl
  | completionT =>
      left
      simp only [step]
      unfold completionTick
      split <;> rfl
  | expiryT =>
      left
      simp only [step]
      unfold expiryTick
      dsimp only
      split
      · split <;> rfl
      · rfl
  | poll ua r =>
      simp only [step]
      unfold checkSessionStatus
      split
      · left; rfl
      · split
        · left; rfl
        · left; rfl
        · rename_i sess
          dsimp only
          unfold applyPolledSession
          split
          · left; rfl
          · rename_i t hts
            split
            · right; left
              refine ⟨ua, sess, rfl, ?_⟩
              rw [hts]
              split <;> rfl
            · left; rfl
  | createOk ua d =>
      simp only [step]
      right; right; right; left
      exact ⟨⟨ua, d, rfl⟩, rfl⟩
  | createErr ua f =>
      left
      simp only [step]
      rfl
  | reset =>
      simp only [step]
      right; right; right; right
      exact ⟨trivial, rfl⟩

/-- C1 (amended): every status update either keeps the status, adopts a
polled session's `txStatus` verbatim, promotes CONFIRMED to COMPLETED via
the local completion countdown, or clears the status to null on
createSession/reset; the local promotion never moves backwards along the
chain.  (Polled adoption is unconstrained, so the server can move the
status backwards: see the counterexample.) -/
theorem C1_status_transitions :
    (∀ (s : HookState) (e : HookEvent),
        (step s e).transactionStatus = s.transactionStatus ∨
          (∃ ua sess, e = HookEvent.poll ua (some (some sess)) ∧
            (step s e).transactionStatus = sess.txStatus) ∨
          (e = HookEvent.completionE ∧ s.transactionStatus = some TxStatus.CONFIRMED ∧
            (step s e).transactionStatus = some TxStatus.COMPLETED) ∨
          ((∃ ua d, e = HookEvent.createOk ua d) ∧ (step s e).transactionStatus = none) ∨
          (e = HookEvent.reset ∧ (step s e).transactionStatus = none)) ∧
      (∀ (s : HookState) (t u : TxStatus),
        s.transactionStatus = some t →
          (step s HookEvent.completionE).transactionStatus = some u →
            statusRank t ≤ statusRank u) := by
  refine ⟨statusUpdate_cases, ?_⟩
  intro s t u ht hu
  rcases statusUpdate_cases s HookEvent.completionE with h | h | h | h | h
  · rw [hu, ht] at h
    obtain rfl := Option.some.inj h
    exact le_refl _
  · obtain ⟨ua, sess, habs, _⟩ := h
    cases habs
  · obtain ⟨_, hconf, hcomp⟩ := h
    rw [ht] at hconf
    rw [hu] at hcomp
    obtain rfl := Option.some.inj hconf
    obtain rfl := Option.some.inj hcomp
    decide
  · obtain ⟨⟨ua, d, habs⟩, _⟩ := h
    cases habs
  · obtain ⟨habs, _⟩ := h
    cases habs

/-- Witness for C1: the local countdown promotion CONFIRMED→COMPLETED is a
forward move along the chain. -/
theorem C1_status_transitions_witness :
    statusRank TxStatus.CONFIRMED ≤ statusRank TxStatus.COMPLETED :=
  C1_status_transitions.2
    { initialState with transactionStatus := some TxStatus.CONFIRMED }
    TxStatus.CONFIRMED TxStatus.COMPLETED rfl (by decide)

/-- Counterexample to C1 as stated: a run in which the server first
reports CONFIRMING and then DETECTED makes the client's status move
backwards along the chain. -/
theorem C1_counterexample :
    (step (step initialState
        (HookEvent.createOk "0xUser"
          { _id := "id1", userAddress := "0xUser", status := "PENDING", txStatus := none }))
        (HookEvent.poll "0xUser" (some (some
          { _id := "id1", userAddress := "0xUser", status := "PENDING",
            txStatus := some TxStatus.CONFIRMING })))).transactionStatus
        = some TxStatus.CONFIRMING ∧
      (step (step (step initialState
        (HookEvent.createOk "0xUser"
          { _id := "id1", userAddress := "0xUser", status := "PENDING", txStatus := none }))
        (HookEvent.poll "0xUser" (some (some
          { _id := "id1", userAddress := "0xUser", status := "PENDING",
            txStatus := some TxStatus.CONFIRMING }))))
        (HookEvent.poll "0xUser" (some (some
          { _id := "id1", userAddress := "0xUser", status := "PENDING",
            txStatus := some TxStatus.DETECTED })))).transactionStatus
        = some TxStatus.DETECTED ∧
      statusRank TxStatus.DETECTED < statusRank TxStatus.CONFIRMING := by
  decide

/-- C2 (amended): the status type has exactly the five non-null enum
values, and every status change either adopts a polled `txStatus`, clears
the status to null, or is the local completion countdown promoting
CONFIRMED to COMPLETED (so not every non-null status originates from
polling). -/
theorem C2_status_values_and_origin :
    (∀ t : TxStatus,
        t = TxStatus.DETECTED ∨ t = TxStatus.PROCESSING ∨ t = TxStatus.CONFIRMING ∨
          t = TxStatus.CONFIRMED ∨ t = TxStatus.COMPLETED) ∧
      (∀ (s : HookState) (e : HookEvent),
        (step s e).transactionStatus = s.transactionStatus ∨
          (step s e).transactionStatus = none ∨
          (∃ ua sess, e = HookEvent.poll ua (some (some sess)) ∧
            (step s e).transactionStatus = sess.txStatus) ∨
          (e = HookEvent.completionE ∧ s.transactionStatus = some TxStatus.CONFIRMED ∧
            (step s e).transactionStatus = some TxStatus.COMPLETED)) := by
  constructor
  · intro t
    rcases t <;> decide
  · intro s e
    rcases statusUpdate_cases s e with h | h | h | h | h
    · exact Or.inl h
    · exact Or.inr (Or.inr (Or.inl h))
    · exact Or.inr (Or.inr (Or.inr h))
    · exact Or.inr (Or.inl h.2)
    · exact Or.inr (Or.inl h.2)

/-- Counterexample to C2 as stated: after the server reports CONFIRMED,
the completion-countdown effect locally sets the status to COMPLETED,
although no polled response ever carried txStatus COMPLETED (the only
polled txStatus in the run is CONFIRMED). -/
theorem C2_counterexample :
    (step (step (step initialState
        (HookEvent.createOk "0xUser"
          { _id := "id1", userAddress := "0xUser", status := "PENDING", txStatus := none }))
        (HookEvent.poll "0xUser" (some (some
          { _id := "id1", userAddress := "0xUser", status := "PENDING",
            txStatus := some TxStatus.CONFIRMED }))))
        HookEvent.completionE).transactionStatus = some TxStatus.COMPLETED ∧
      ({ _id := "id1", userAddress := "0xUser", status := "PENDING",
          txStatus := some TxStatus.CONFIRMED } : DepositSession).txStatus
        ≠ some TxStatus.COMPLETED := by
  decide

/-- C8: getProgressFromStatus maps the five statuses to 20/40/60/80/100
and null to 0; a completion-countdown tick caps the computed progress at
100 via min; and in every reachable state progressPercentage lies between
0 and 100. -/
theorem C8_progress_percentage_bounds :
    (getProgressFromStatus (some TxStatus.DETECTED) = 20 ∧
      getProgressFromStatus (some TxStatus.PROCESSING) = 40 ∧
      getProgressFromStatus (some TxStatus.CONFIRMING) = 60 ∧
      getProgressFromStatus (some TxStatus.CONFIRMED) = 80 ∧
      getProgressFromStatus (some TxStatus.COMPLETED) = 100 ∧
      getProgressFromStatus none = 0) ∧
      (∀ s : HookState, 0 < s.completionCountdown →
        (completionTick s).progressPercentage ≤ 100) ∧
      (∀ s : HookState, Reachable s →
        0 ≤ s.progressPercentage ∧ s.progressPercentage ≤ 100) := by
  refine ⟨⟨rfl, rfl, rfl, rfl, rfl, rfl⟩, ?_, ?_⟩
  · intro s hpos
    unfold completionTick
    rw [if_pos hpos]
    exact min_le_right _ _
  · intro s h
    obtain ⟨h1, h2, _⟩ := reachable_inv s h
    exact ⟨h1, h2⟩

/-- Witness for C8 at concrete states. -/
theorem C8_progress_percentage_bounds_witness :
    (completionTick { initialState with completionCountdown := 5 }).progressPercentage ≤ 100 ∧
      (0 ≤ initialState.progressPercentage ∧ initialState.progressPercentage ≤ 100) :=
  ⟨C8_progress_percentage_bounds.2.1 { initialState with completionCountdown := 5 } (by decide),
    C8_progress_percentage_bounds.2.2 initialState Reachable.init⟩

/-- C9: resetSession sets the eight exposed fields back to their initial
values from any state, fixes the initial state, and is idempotent. -/
theorem C9_reset_restores_initial :
    ∀ s : HookState,
      (resetSession s).sessionId = none ∧
        (resetSession s).currentSession = none ∧
        (resetSession s).showQR = false ∧
        (resetSession s).timeLeft = 300 ∧
        (resetSession s).transactionStatus = none ∧
        (resetSession s).progressPercentage = 0 ∧
        (resetSession s).isDepositCompleted = false ∧
        (resetSession s).error = none ∧
        resetSession initialState = initialState ∧
        resetSession (resetSession s) = resetSession s := by
  intro s
  exact ⟨rfl, rfl, rfl, rfl, rfl, rfl, rfl, rfl, rfl, rfl⟩

/-- The expiry-countdown guard forces a positive timeLeft. -/
theorem expiryGuard_pos (s : HookState) (h : expiryGuard s = true) : 0 < s.timeLeft := by
  unfold expiryGuard at h
  rw [Bool.and_eq_true] at h
  exact of_decide_eq_true h.2

/-- C3: each expiry tick decrements timeLeft by exactly one; timeLeft
stays non-negative (and is non-negative in every reachable state); the
tick that reaches zero hides the QR, expires the session (a null session
staying null) and clamps timeLeft to 0; and the countdown does not run
when the guard fails. -/
theorem C3_expiry_countdown :
    (∀ s : HookState, expiryGuard s = true → (expiryTick s).timeLeft = s.timeLeft - 1) ∧
      (∀ s : HookState, 0 ≤ s.timeLeft → 0 ≤ (expiryTick s).timeLeft) ∧
      (∀ s : HookState, Reachable s → 0 ≤ s.timeLeft) ∧
      (∀ s : HookState, expiryGuard s = true → s.timeLeft ≤ 1 →
        (expiryTick s).showQR = false ∧
          (expiryTick s).currentSession = expireSessionUpdate s.currentSession ∧
          (expiryTick s).timeLeft = 0) ∧
      expireSessionUpdate none = none ∧
      (∀ cs : DepositSession,
        expireSessionUpdate (some cs) = some { cs with status := "EXPIRED" }) ∧
      (∀ s : HookState, expiryGuard s = false → expiryTick s = s) ∧
      (∀ s : HookState, expiryGuard s = true ↔
        (s.showQR = true ∧
          (∃ cs, s.currentSession = some cs ∧ cs.status = "PENDING") ∧
          0 < s.timeLeft)) := by
  refine ⟨?_, ?_, ?_, ?_, rfl, fun cs => rfl, ?_, ?_⟩
  · intro s hg
    have hpos := expiryGuard_pos s hg
    unfold expiryTick
    rw [if_pos hg]
    dsimp only
    split
    · dsimp only
      omega
    · rfl
  · intro s h
    unfold expiryTick
    split
    · dsimp only
      split
      · dsimp only
        omega
      · dsimp only
        omega
    · exact h
  · intro s h
    exact (reachable_inv s h).2.2.2.2
  · intro s hg hle
    have hpos := expiryGuard_pos s hg
    unfold expiryTick
    rw [if_pos hg]
    dsimp only
    rw [if_pos (by omega : s.timeLeft - 1 ≤ 0)]
    exact ⟨rfl, rfl, rfl⟩
  · intro s hg
    unfold expiryTick
    simp [hg]
  · intro s
    unfold expiryGuard
    rcases h : s.currentSession with _ | cs <;>
      simp [h, Bool.and_eq_true, decide_eq_true_eq, and_assoc]

/-- Witness for C3 at concrete states. -/
theorem C3_expiry_countdown_witness :
    (expiryTick runningState).timeLeft = runningState.timeLeft - 1 ∧
      0 ≤ (expiryTick runningState).timeLeft ∧
      0 ≤ initialState.timeLeft ∧
      ((expiryTick lastSecondState).showQR = false ∧
        (expiryTick lastSecondState).currentSession
          = expireSessionUpdate lastSecondState.currentSession ∧
        (expiryTick lastSecondState).timeLeft = 0) ∧
      expiryTick initialState = initialState :=
  ⟨C3_expiry_countdown.1 runningState (by decide),
    C3_expiry_countdown.2.1 runningState (by decide),
    C3_expiry_countdown.2.2.1 initialState Reachable.init,
    C3_expiry_countdown.2.2.2.1 lastSecondState (by decide) (by decide),
    C3_expiry_countdown.2.2.2.2.2.2.1 initialState (by decide)⟩

/-- C4: createSession starts a 5000 ms poll interval calling
checkSessionStatus with the caller's address; checkSessionStatus is a
no-op issuing no request whenever the deposit is completed, the sessionId
is null or the currentSession is null; and resetSession clears
isDepositCompleted. -/
theorem C4_polling_guards :
    (∀ (s : HookState) (ua : String) (d : DepositSession),
        (createSession s ua (Except.ok d)).2.1
          = [{ periodMs := 5000, action := IntervalAction.pollSession ua }]) ∧
      (∀ (s : HookState) (ua : String) (r : Option (Option DepositSession)),
        s.isDepositCompleted = true → checkSessionStatus s ua r = (s, none)) ∧
      (∀ (s : HookState) (ua : String) (r : Option (Option DepositSession)),
        s.sessionId = none → checkSessionStatus s ua r = (s, none)) ∧
      (∀ (s : HookState) (ua : String) (r : Option (Option DepositSession)),
        s.currentSession = none → checkSessionStatus s ua r = (s, none)) ∧
      (∀ s : HookState, (resetSession s).isDepositCompleted = false) := by
  refine ⟨fun s ua d => rfl, ?_, ?_, ?_, fun s => rfl⟩
  · intro s ua r h
    unfold checkSessionStatus
    simp [h]
  · intro s ua r h
    unfold checkSessionStatus
    simp [h]
  · intro s ua r h
    unfold checkSessionStatus
    simp [h]

/-- Witness for C4 at concrete states. -/
theorem C4_polling_guards_witness :
    checkSessionStatus completedState "0xUser"
        (some (some
          { _id := "id1", userAddress := "0xUser", status := "PENDING",
            txStatus := some TxStatus.DETECTED }))
        = (completedState, none) ∧
      checkSessionStatus initialState "0xUser" none = (initialState, none) :=
  ⟨C4_polling_guards.2.1 completedState "0xUser"
      (some (some
        { _id := "id1", userAddress := "0xUser", status := "PENDING",
          txStatus := some TxStatus.DETECTED })) rfl,
    C4_polling_guards.2.2.1 initialState "0xUser" none rfl⟩

/-- Counterexample to C5 as stated: a failure whose response carries the
empty-string error message is not stored; JS `||` treats it as falsy and
the fixed fallback is stored instead. -/
theorem C5_counterexample :
    (createSession initialState "0xUser"
          (Except.error { responseError := some "" })).1.error
        = some "Failed to create deposit session" ∧
      (some "" : Option String) ≠ some "Failed to create deposit session" := by
  decide

/-- C5 (amended): on a failed POST, createSession stores the
server-supplied error message when the failure carries a non-empty one
and the fixed fallback otherwise, returns no cleanup (undefined), starts
no interval, and leaves the other outputs unchanged. -/
theorem C5_create_failure :
    ∀ (s : HookState) (ua : String) (f : AxiosFailure),
      (createSession s ua (Except.error f)).1.error = some (axiosErrorMessage f) ∧
        (∀ m : String, f.responseError = some m → m ≠ "" → axiosErrorMessage f = m) ∧
        ((f.responseError = none ∨ f.responseError = some "") →
          axiosErrorMessage f = "Failed to create deposit session") ∧
        (createSession s ua (Except.error f)).2.2 = none ∧
        (createSession s ua (Except.error f)).2.1 = [] ∧
        (createSession s ua (Except.error f)).1.sessionId = s.sessionId ∧
        (createSession s ua (Except.error f)).1.currentSession = s.currentSession ∧
        (createSession s ua (Except.error f)).1.showQR = s.showQR ∧
        (createSession s ua (Except.error f)).1.timeLeft = s.timeLeft ∧
        (createSession s ua (Except.error f)).1.transactionStatus = s.transactionStatus ∧
        (createSession s ua (Except.error f)).1.progressPercentage = s.progressPercentage ∧
        (createSession s ua (Except.error f)).1.isDepositCompleted = s.isDepositCompleted := by
  intro s ua f
  refine ⟨rfl, ?_, ?_, rfl, rfl, rfl, rfl, rfl, rfl, rfl, rfl, rfl⟩
  · intro m hm hne
    unfold axiosErrorMessage
    rw [hm]
    dsimp only
    rw [if_neg hne]
  · intro h
    rcases h with h | h
    · rw [axiosErrorMessage, h]
    · rw [axiosErrorMessage, h]
      rfl

/-- Witness for C5 at concrete failures. -/
theorem C5_create_failure_witness :
    axiosErrorMessage { responseError := some "boom" } = "boom" ∧
      axiosErrorMessage { responseError := none } = "Failed to create deposit session" ∧
      (createSession initialState "0xUser"
          (Except.error { responseError := some "boom" })).1.error
        = some (axiosErrorMessage { responseError := some "boom" }) :=
  ⟨(C5_create_failure initialState "0xUser" { responseError := some "boom" }).2.1
      "boom" rfl (by decide),
    (C5_create_failure initialState "0xUser" { responseError := none }).2.2.1 (Or.inl rfl),
    (C5_create_failure initialState "0xUser" { responseError := some "boom" }).1⟩

/-- C6: each effect's returned cleanup clears exactly the intervals the
effect started, and createSession on success returns a cleanup clearing
exactly the poll interval it started (and starts none on failure, where
it returns undefined). -/
theorem C6_timer_cleanup :
    (∀ s : HookState, (completionEffect s).2.1 = (completionEffect s).2.2) ∧
      (∀ s : HookState, (expiryEffect s).1 = (expiryEffect s).2) ∧
      (∀ (s : HookState) (ua : String) (d : DepositSession),
        (createSession s ua (Except.ok d)).2.2
          = some (createSession s ua (Except.ok d)).2.1) ∧
      (∀ (s : HookState) (ua : String) (f : AxiosFailure),
        (createSession s ua (Except.error f)).2.1 = [] ∧
          (createSession s ua (Except.error f)).2.2 = none) := by
  refine ⟨?_, ?_, fun s ua d => rfl, fun s ua f => ⟨rfl, rfl⟩⟩
  · intro s
    unfold completionEffect
    split
    · split <;> rfl
    · rfl
  · intro s
    unfold expiryEffect
    split <;> rfl

/-- C7: the POST payload is exactly the caller's userAddress with the
configured DEPOSIT_ADDRESS; the returned session and its _id become the
current session and sessionId; the poll interval carries the same
address; and every issued poll GET targets the user's session URL. -/
theorem C7_session_correlation :
    ∀ ua : String,
      createSessionPayload ua = { userAddress := ua, depositAddress := DEPOSIT_ADDRESS } ∧
        (∀ (s : HookState) (d : DepositSession),
          (createSession s ua (Except.ok d)).1.currentSession = some d ∧
            (createSession s ua (Except.ok d)).1.sessionId = some d._id ∧
            (createSession s ua (Except.ok d)).2.1
              = [{ periodMs := 5000, action := IntervalAction.pollSession ua }]) ∧
        (∀ (s : HookState) (r : Option (Option DepositSession)),
          (checkSessionStatus s ua r).2 = none ∨
            (checkSessionStatus s ua r).2
              = some (PROXY_URL ++ "/deposit-sessions/user/" ++ ua)) := by
  intro ua
  refine ⟨rfl, fun s d => ⟨rfl, rfl, rfl⟩, ?_⟩
  intro s r
  unfold checkSessionStatus
  split
  · left; rfl
  · split
    · right; rfl
    · right; rfl
    · right; rfl

/-- C10: for every non-negative seconds value formatTime renders the
zero-padded MM:SS described by the spec, and the "Session will expire in"
line computes its minutes and seconds by the same floor-division and
modulus, so the two displays agree. -/
theorem C10_formatTime_agree :
    ∀ n : Int, 0 ≤ n →
      formatTime n = formatTimeSpec n.toNat ∧
        formatTime n
          = padStart2 (toString (expireLineMinutes n)) ++ ":"
              ++ padStart2 (toString (expireLineSeconds n)) ∧
        expireLineMinutes n = ((n.toNat / 60 : Nat) : Int) ∧
        expireLineSeconds n = ((n.toNat % 60 : Nat) : Int) := by
  intro n hn
  obtain ⟨m, rfl⟩ := Int.eq_ofNat_of_zero_le hn
  have hd : Int.fdiv (m : Int) 60 = ((m / 60 : Nat) : Int) := (Int.ofNat_fdiv m 60).symm
  refine ⟨?_, rfl, ?_, rfl⟩
  · simp only [formatTime, formatTimeSpec]
    rw [hd]
    rfl
  · exact hd

/-- Witness for C10 at 125 seconds. -/
theorem C10_formatTime_agree_witness :
    formatTime 125 = formatTimeSpec (125 : Int).toNat ∧
      formatTimeSpec 125 = "02:05" ∧ formatTime 125 = "02:05" :=
  ⟨(C10_formatTime_agree 125 (by decide)).1, by decide, by decide⟩

end UI
